import Mathlib

/-!
Shallow embedding of the shrimp-farming forecast dashboard (`src/app.py`).
The numeric core is the callback `update_output`: it coerces the submitted
inputs (line 93), builds the day series (line 96) and the two feature
matrices (lines 99-124), maps the two regression models over them, and
aggregates daily biomass into cumulative biomass and cumulative revenue
(lines 127-129), ending with a formatted summary string (line 136).
Machine floats are modelled by exact rationals; the two pre-trained models
are opaque parameters of type `List ℚ → ℚ` (one prediction per feature row).
-/

namespace ShrimpDash

/-- The 19 named input fields, in the order of `default_values` (app.py 15-35). -/
inductive Field where
  | days_until_harvest
  | cycle_age_days
  | total_seed
  | area
  | total_shrimp
  | total_weight
  | feed_quantity
  | morning_temperature
  | evening_temperature
  | morning_do
  | evening_do
  | morning_salinity
  | evening_salinity
  | morning_pH
  | evening_pH
  | nitrate
  | nitrite
  | alkalinity
  | price_per_kg
  deriving DecidableEq

/-- `default_values` (app.py lines 15-35). -/
def default_values : Field → ℚ
  | .days_until_harvest => 60
  | .cycle_age_days => 60
  | .total_seed => 100000
  | .area => 1000
  | .total_shrimp => 95000
  | .total_weight => 1500
  | .feed_quantity => 1200
  | .morning_temperature => 28
  | .evening_temperature => 27
  | .morning_do => 7.2
  | .evening_do => 6.8
  | .morning_salinity => 35
  | .evening_salinity => 34
  | .morning_pH => 7.8
  | .evening_pH => 7.7
  | .nitrate => 0.25
  | .nitrite => 0.02
  | .alkalinity => 120
  | .price_per_kg => 12

/-- `usd_to_idr = 15000` (app.py line 38). -/
def usd_to_idr : ℚ := 15000

/-- Python `int(...)` on a number: truncation toward zero. -/
def pyInt (q : ℚ) : ℤ := if 0 ≤ q then ⌊q⌋ else ⌈q⌉

/-- The raw values arriving from the UI: `None` or a number, per field. -/
abbrev RawInputs := Field → Option ℚ

/-- A fully populated parameter set, as built on line 93. -/
abbrev Params := Field → ℚ

/-- Line 93: `int(val) if val is not None else default_values[key]`. -/
def coerceInputs (raw : RawInputs) : Params := fun k =>
  match raw k with
  | some v => ((pyInt v : ℤ) : ℚ)
  | none => default_values k

/-- Line 96: `np.arange(1, days_until_harvest + 1)` (empty when the bound
is not positive; `⌈dh⌉` values when the stop is `dh + 1`). -/
def days (dh : ℚ) : List ℚ :=
  (List.range ⌈dh⌉.toNat).map (fun i : ℕ => (i : ℚ) + 1)

/-- Lines 99-119: the 17-field feature row of the survival-rate model. -/
def features_sr (p : Params) (day : ℚ) : List ℚ :=
  [day, p .total_seed, p .area, p .total_shrimp, p .total_weight,
   p .feed_quantity, p .morning_temperature, p .evening_temperature,
   p .morning_do, p .evening_do, p .morning_salinity, p .evening_salinity,
   p .morning_pH, p .evening_pH, p .nitrate, p .nitrite, p .alkalinity]

/-- Lines 122-124: the 3-field feature row of the ABW model. -/
def features_abw (p : Params) (day : ℚ) : List ℚ :=
  [day, p .area, p .feed_quantity]

/-- An opaque pre-trained regression model: one prediction per feature row. -/
abbrev Model := List ℚ → ℚ

/-- Line 120: `model_sr.predict(features_sr)`, row by row. -/
def sr_predictions (m : Model) (p : Params) : List ℚ :=
  (days (p .days_until_harvest)).map (fun d => m (features_sr p d))

/-- Line 125: `model_abw.predict(features_abw)`, row by row. -/
def abw_predictions (m : Model) (p : Params) : List ℚ :=
  (days (p .days_until_harvest)).map (fun d => m (features_abw p d))

/-- Line 127: `daily_biomass = abw_predictions / 1000 * inputs['total_shrimp']`. -/
def daily_biomass (m : Model) (p : Params) : List ℚ :=
  (abw_predictions m p).map (fun a => a / 1000 * p .total_shrimp)

/-- `np.cumsum` with an explicit running accumulator. -/
def cumsumFrom (acc : ℚ) : List ℚ → List ℚ
  | [] => []
  | x :: xs => (acc + x) :: cumsumFrom (acc + x) xs

/-- `np.cumsum`: left-to-right running totals. -/
def cumsum (l : List ℚ) : List ℚ := cumsumFrom 0 l

/-- Line 128: `cumulative_biomass = np.cumsum(daily_biomass)`. -/
def cumulative_biomass (m : Model) (p : Params) : List ℚ :=
  cumsum (daily_biomass m p)

/-- Line 129: `np.cumsum(daily_biomass * inputs['price_per_kg'] * usd_to_idr)`. -/
def cumulative_revenue_idr (m : Model) (p : Params) : List ℚ :=
  cumsum ((daily_biomass m p).map (fun b => b * p .price_per_kg * usd_to_idr))

/-- Two decimal digits, zero padded. -/
def pad2 (n : ℕ) : String :=
  if n < 10 then "0" ++ toString n else toString n

/-- Three decimal digits, zero padded (the groups after the first comma). -/
def pad3 (n : ℕ) : String :=
  if n < 10 then "00" ++ toString n
  else if n < 100 then "0" ++ toString n
  else toString n

/-- Decimal digits of `n` grouped in threes by commas; the first argument is
fuel (taking it as `n` itself is always enough). -/
def groupDigitsAux : ℕ → ℕ → String
  | 0, n => toString n
  | fuel + 1, n =>
      if n < 1000 then toString n
      else groupDigitsAux fuel (n / 1000) ++ "," ++ pad3 (n % 1000)

/-- Decimal digits of `n` grouped in threes by commas. -/
def groupDigits (n : ℕ) : String := groupDigitsAux n n

/-- Round to the nearest integer, ties to even: the rounding Python's
float formatting applies. -/
def roundHalfEven (q : ℚ) : ℤ :=
  if q - ⌊q⌋ < 1 / 2 then ⌊q⌋
  else if 1 / 2 < q - ⌊q⌋ then ⌊q⌋ + 1
  else if ⌊q⌋ % 2 = 0 then ⌊q⌋ else ⌊q⌋ + 1

/-- Python's format spec `:,.2f`: thousands separators and 2 decimal places. -/
def formatMoney (q : ℚ) : String :=
  let cents := roundHalfEven (q * 100)
  let sign := if cents < 0 then "-" else ""
  let n := cents.natAbs
  sign ++ groupDigits (n / 100) ++ "." ++ pad2 (n % 100)

/-- Line 136: the summary string
`f"Forecasted Revenue by Day ...: IDR ..."`. -/
def revenue_output (dh : ℚ) (lastRevenue : ℚ) : String :=
  "Forecasted Revenue by Day " ++ toString (pyInt dh) ++ ": IDR " ++
    formatMoney lastRevenue

/-- The five outputs of the callback that carry numeric content: the four
plotted series (x = day series throughout) and the summary string. -/
structure Forecast where
  dayList : List ℚ
  sr : List ℚ
  abw : List ℚ
  biomass : List ℚ
  revenue : List ℚ
  summary : String
  deriving DecidableEq

/-- Lines 96-138 of `update_output`, after the input coercion: the forecast
on a fully populated parameter set. `cumulative_revenue_idr[-1]` raises
`IndexError` on an empty series, modelled as `none`. -/
def forecast (mSR mABW : Model) (p : Params) : Option Forecast :=
  match (cumulative_revenue_idr mABW p).getLast? with
  | none => none
  | some last =>
      some ⟨days (p .days_until_harvest), sr_predictions mSR p,
            abw_predictions mABW p, cumulative_biomass mABW p,
            cumulative_revenue_idr mABW p,
            revenue_output (p .days_until_harvest) last⟩

/-- The whole callback `update_output` (lines 92-138): coerce the raw
inputs (line 93), then compute the forecast. -/
def update_output (mSR mABW : Model) (raw : RawInputs) : Option Forecast :=
  forecast mSR mABW (coerceInputs raw)

/-! Concrete inputs and deterministic model stubs used to instantiate the
properties: the spec's scenario (days_until_harvest=3, total_shrimp=100,
price_per_kg=1, ABW predictions 10/20/30 grams) and small variants. -/

/-- The spec's scenario, as submitted values: day horizon 3, 100 shrimp,
price 1; every other field left empty (defaulted). -/
def rawScenario : RawInputs := fun k =>
  match k with
  | .days_until_harvest => some 3
  | .total_shrimp => some 100
  | .price_per_kg => some 1
  | _ => none

/-- The scenario's coerced parameter set. -/
def pScenario : Params := coerceInputs rawScenario

/-- ABW model stub predicting 10 grams per day number (10/20/30 on days
1..3), reading the day from the first feature. -/
def stubABW : Model := fun row => 10 * row.headI

/-- Survival-rate model stub predicting a constant 50 percent. -/
def stubSR : Model := fun _ => 50

/-- Model stub predicting a constant 1. -/
def oneModel : Model := fun _ => 1

/-- Model stub predicting a constant 0. -/
def zeroModel : Model := fun _ => 0

/-- Parameter set with every field equal to 1. -/
def oneParams : Params := fun _ => 1

/-- Parameter set with a 2-day horizon and every other field equal to 1. -/
def pTwo : Params := fun k =>
  match k with
  | .days_until_harvest => 2
  | _ => 1

/-- Parameter set with a 2-day horizon, a negative shrimp count, and every
other field equal to 1 (the UI accepts negative numbers). -/
def pNegShrimp : Params := fun k =>
  match k with
  | .days_until_harvest => 2
  | .total_shrimp => -1000
  | _ => 1

/-- Raw inputs that submit days_until_harvest=0 and leave the rest empty. -/
def rawZeroDays : RawInputs := fun k =>
  match k with
  | .days_until_harvest => some 0
  | _ => none

/-- Raw inputs typing 7.2 into morning_do over a 2-day horizon. -/
def rawTypedDO : RawInputs := fun k =>
  match k with
  | .days_until_harvest => some 2
  | .morning_do => some 7.2
  | _ => none

/-- Raw inputs leaving morning_do empty (default 7.2) over a 2-day horizon. -/
def rawDefaultedDO : RawInputs := fun k =>
  match k with
  | .days_until_harvest => some 2
  | _ => none

/-- Survival-rate model stub that echoes the morning_do feature (position 8
of the 17-field row). -/
def echoDO : Model := fun row => row.getD 8 0

/-- Raw inputs that leave every field empty. -/
def rawAllNone : RawInputs := fun _ => none

/-! General lemmas about the running-total operator and the day series. -/

theorem cumsumFrom_length (acc : ℚ) (l : List ℚ) :
    (cumsumFrom acc l).length = l.length := by
  induction l generalizing acc with
  | nil => rfl
  | cons x xs ih => simp [cumsumFrom, ih]

theorem cumsum_length (l : List ℚ) : (cumsum l).length = l.length :=
  cumsumFrom_length 0 l

theorem getD_map (f : ℚ → ℚ) (l : List ℚ) (d : ℕ) (h : d < l.length) :
    (l.map f).getD d 0 = f (l.getD d 0) := by
  induction l generalizing d with
  | nil => simp at h
  | cons x xs ih =>
      cases d with
      | zero => rfl
      | succ d => simpa using ih d (by simpa using h)

theorem cumsumFrom_getD (acc : ℚ) (l : List ℚ) (d : ℕ) (h : d < l.length) :
    (cumsumFrom acc l).getD d 0 = acc + (l.take (d + 1)).sum := by
  induction l generalizing acc d with
  | nil => simp at h
  | cons x xs ih =>
      cases d with
      | zero => simp [cumsumFrom]
      | succ d =>
          have hd : d < xs.length := by simpa using h
          calc (cumsumFrom acc (x :: xs)).getD (d + 1) 0
              = (cumsumFrom (acc + x) xs).getD d 0 := by simp [cumsumFrom]
            _ = (acc + x) + (xs.take (d + 1)).sum := ih (acc + x) d hd
            _ = acc + ((x :: xs).take (d + 2)).sum := by
                simp [List.take_succ_cons]; ring

theorem cumsum_getD (l : List ℚ) (d : ℕ) (h : d < l.length) :
    (cumsum l).getD d 0 = (l.take (d + 1)).sum := by
  simpa using cumsumFrom_getD 0 l d h

theorem cumsum_getLast? (l : List ℚ) (h : l ≠ []) :
    (cumsum l).getLast? = some l.sum := by
  have hpos : 0 < l.length := List.length_pos.mpr h
  have h1 : l.length - 1 < l.length := Nat.sub_lt hpos one_pos
  have h2 : l.length - 1 < (cumsum l).length := by rw [cumsum_length]; exact h1
  rw [List.getLast?_eq_getElem?, cumsum_length, List.getElem?_eq_getElem h2]
  have h3 := cumsum_getD l (l.length - 1) h1
  rw [List.getD_eq_getElem _ _ h2] at h3
  rw [h3, Nat.sub_add_cancel hpos, List.take_length]

theorem cumsum_getD_succ (l : List ℚ) (d : ℕ) (h : d + 1 < l.length) :
    (cumsum l).getD (d + 1) 0 = (cumsum l).getD d 0 + l.getD (d + 1) 0 := by
  rw [cumsum_getD l d (Nat.lt_of_succ_lt h), cumsum_getD l (d + 1) h,
    List.sum_take_succ l (d + 1) h, List.getD_eq_getElem _ _ h]

theorem sum_map_mul_mul (l : List ℚ) (c₁ c₂ : ℚ) :
    (l.map (fun b => b * c₁ * c₂)).sum = l.sum * c₁ * c₂ := by
  induction l with
  | nil => simp
  | cons x xs ih => simp [ih]; ring

theorem days_natCast (n : ℕ) :
    days ((n : ℚ)) = (List.range n).map (fun i : ℕ => (i : ℚ) + 1) := by
  unfold days
  norm_num

theorem days_length_natCast (n : ℕ) : (days ((n : ℚ))).length = n := by
  rw [days_natCast, List.length_map, List.length_range]

theorem days_one : days ((1 : ℚ)) = [1] := by
  have h := days_natCast 1
  push_cast at h
  rw [h, show List.range 1 = [0] from rfl]
  norm_num

theorem days_two : days ((2 : ℚ)) = [1, 2] := by
  have h := days_natCast 2
  push_cast at h
  rw [h, show List.range 2 = [0, 1] from rfl]
  norm_num

theorem days_three : days ((3 : ℚ)) = [1, 2, 3] := by
  have h := days_natCast 3
  push_cast at h
  rw [h, show List.range 3 = [0, 1, 2] from rfl]
  norm_num

theorem days_length_sixty : (days ((60 : ℚ))).length = 60 := by
  have h := days_length_natCast 60
  push_cast at h
  exact h

/-! The claims. -/

/-- Claim C1: for every parameter set and day index within the horizon, the
aggregator computes daily biomass as the day's ABW prediction divided by
1000 times total_shrimp, cumulative biomass as the left-to-right running
total of daily biomass, and cumulative revenue as that running total
multiplied by price_per_kg and by the fixed exchange-rate constant
`usd_to_idr = 15000`. -/
theorem claim_C1 (m : Model) (p : Params) (d : ℕ)
    (h : d < (abw_predictions m p).length) :
    (daily_biomass m p).getD d 0
        = (abw_predictions m p).getD d 0 / 1000 * p .total_shrimp
    ∧ (cumulative_biomass m p).getD d 0 = ((daily_biomass m p).take (d + 1)).sum
    ∧ (cumulative_revenue_idr m p).getD d 0
        = ((daily_biomass m p).take (d + 1)).sum * p .price_per_kg * usd_to_idr
    ∧ usd_to_idr = 15000 := by
  have hd : d < (daily_biomass m p).length := by
    simpa [daily_biomass] using h
  refine ⟨getD_map _ _ _ h, cumsum_getD _ _ hd, ?_, rfl⟩
  rw [cumulative_revenue_idr, cumsum_getD _ _ (by simpa using hd),
    ← List.map_take, sum_map_mul_mul]

/-- Witness for C1 at day index 0 of the all-ones parameter set with the
constant-one model. -/
theorem claim_C1_witness :
    (daily_biomass oneModel oneParams).getD 0 0
        = (abw_predictions oneModel oneParams).getD 0 0 / 1000
            * oneParams Field.total_shrimp
    ∧ (cumulative_biomass oneModel oneParams).getD 0 0
        = ((daily_biomass oneModel oneParams).take 1).sum
    ∧ (cumulative_revenue_idr oneModel oneParams).getD 0 0
        = ((daily_biomass oneModel oneParams).take 1).sum
            * oneParams Field.price_per_kg * usd_to_idr
    ∧ usd_to_idr = 15000 :=
  claim_C1 oneModel oneParams 0 (by
    have h : (abw_predictions oneModel oneParams).length = 1 := by
      simp [abw_predictions, oneParams, days_one]
    omega)

/-- Claim C2: for every valid parameter set (an integral day horizon), the
day series is the sequence 1..days_until_harvest of that length, and the
survival-rate, ABW, cumulative-biomass and cumulative-revenue series all
have that same length. -/
theorem claim_C2 (mSR mABW : Model) (p : Params) (n : ℕ)
    (h : p .days_until_harvest = (n : ℚ)) :
    (days (p .days_until_harvest)).length = n
    ∧ (∀ i : ℕ, i < n → (days (p .days_until_harvest)).getD i 0 = (i : ℚ) + 1)
    ∧ (sr_predictions mSR p).length = n
    ∧ (abw_predictions mABW p).length = n
    ∧ (cumulative_biomass mABW p).length = n
    ∧ (cumulative_revenue_idr mABW p).length = n := by
  have hlen : (days (p .days_until_harvest)).length = n := by
    rw [h, days_length_natCast]
  refine ⟨hlen, ?_, ?_, ?_, ?_, ?_⟩
  · intro i hi
    rw [h, days_natCast]
    have hib : i < ((List.range n).map (fun j : ℕ => (j : ℚ) + 1)).length := by
      simpa using hi
    rw [List.getD_eq_getElem _ _ hib, List.getElem_map, List.getElem_range]
  · simp [sr_predictions, hlen]
  · simp [abw_predictions, hlen]
  · simp [cumulative_biomass, cumsum_length, daily_biomass, abw_predictions, hlen]
  · simp [cumulative_revenue_idr, cumsum_length, daily_biomass, abw_predictions, hlen]

/-- Witness for C2 on the all-ones parameter set (horizon 1). -/
theorem claim_C2_witness :
    (days (oneParams Field.days_until_harvest)).length = 1
    ∧ (∀ i : ℕ, i < 1 →
        (days (oneParams Field.days_until_harvest)).getD i 0 = (i : ℚ) + 1)
    ∧ (sr_predictions oneModel oneParams).length = 1
    ∧ (abw_predictions oneModel oneParams).length = 1
    ∧ (cumulative_biomass oneModel oneParams).length = 1
    ∧ (cumulative_revenue_idr oneModel oneParams).length = 1 :=
  claim_C2 oneModel oneModel oneParams 1 (by norm_num [oneParams])

/-- Claim C4: for every non-empty forecast, the last element of the
cumulative revenue series equals the total daily biomass multiplied by
price_per_kg and by 15000, exactly over rational arithmetic: scaling each
term before summation agrees with scaling the total. -/
theorem claim_C4 (m : Model) (p : Params) (h : daily_biomass m p ≠ []) :
    (cumulative_revenue_idr m p).getLast?
      = some ((daily_biomass m p).sum * p .price_per_kg * usd_to_idr) := by
  rw [cumulative_revenue_idr, cumsum_getLast? _ (by simpa using h),
    sum_map_mul_mul]

/-- Witness for C4 on the all-ones parameter set with the constant-one
model. -/
theorem claim_C4_witness :
    (cumulative_revenue_idr oneModel oneParams).getLast?
      = some ((daily_biomass oneModel oneParams).sum
          * oneParams Field.price_per_kg * usd_to_idr) :=
  claim_C4 oneModel oneParams (by
    simp [daily_biomass, abw_predictions, oneParams, days_one])

/-- Claim C7: for every parameter set and day, the survival-rate feature
row is the fixed-order 17-field tuple (day followed by the 16
environment/operation fields) and the ABW feature row is the fixed-order
3-field tuple (day, area, feed_quantity). -/
theorem claim_C7 (p : Params) (d : ℚ) :
    (features_sr p d).length = 17
    ∧ features_sr p d
        = d :: [p .total_seed, p .area, p .total_shrimp, p .total_weight,
            p .feed_quantity, p .morning_temperature, p .evening_temperature,
            p .morning_do, p .evening_do, p .morning_salinity,
            p .evening_salinity, p .morning_pH, p .evening_pH,
            p .nitrate, p .nitrite, p .alkalinity]
    ∧ (features_abw p d).length = 3
    ∧ features_abw p d = [d, p .area, p .feed_quantity] :=
  ⟨rfl, rfl, rfl, rfl⟩

/-- Claim C8: the forecast computation is deterministic: identical raw
inputs (with the same deterministic model stubs) yield identical outputs. -/
theorem claim_C8 (mSR mABW : Model) (raw₁ raw₂ : RawInputs)
    (h : raw₁ = raw₂) :
    update_output mSR mABW raw₁ = update_output mSR mABW raw₂ := by
  rw [h]

/-- Witness for C8 on two identical all-empty submissions. -/
theorem claim_C8_witness :
    update_output zeroModel zeroModel rawAllNone
      = update_output zeroModel zeroModel rawAllNone :=
  claim_C8 zeroModel zeroModel rawAllNone rawAllNone rfl

/-- Claim C3 (code bug): at days_until_harvest = 0 the series are indeed
empty, but the callback does not succeed with a zero-revenue summary: the
final index into the empty revenue series fails (`none` in the embedding,
an `IndexError` in the source). -/
theorem claim_C3_failure :
    days (coerceInputs rawZeroDays Field.days_until_harvest) = []
    ∧ update_output zeroModel zeroModel rawZeroDays = none := by
  have hdh : coerceInputs rawZeroDays Field.days_until_harvest = ((0 : ℕ) : ℚ) := by
    norm_num [coerceInputs, rawZeroDays, pyInt]
  have hdays : days (coerceInputs rawZeroDays Field.days_until_harvest) = [] := by
    rw [hdh, days_natCast]
    simp
  refine ⟨hdays, ?_⟩
  rw [update_output, forecast]
  have hrev : cumulative_revenue_idr zeroModel (coerceInputs rawZeroDays) = [] := by
    rw [cumulative_revenue_idr, daily_biomass, abw_predictions, hdays]
    rfl
  rw [hrev]
  rfl

/-- Claim C5 as stated is false on the code: with a negative total_shrimp
(accepted by the UI and never validated) the cumulative biomass series
strictly decreases even though every ABW prediction is non-negative. -/
theorem claim_C5_counterexample :
    (∀ a ∈ abw_predictions oneModel pNegShrimp, 0 ≤ a)
    ∧ ¬ ((cumulative_biomass oneModel pNegShrimp).getD 0 0
          ≤ (cumulative_biomass oneModel pNegShrimp).getD 1 0) := by
  have hdh : pNegShrimp Field.days_until_harvest = (2 : ℚ) := rfl
  have habw : abw_predictions oneModel pNegShrimp = [1, 1] := by
    rw [abw_predictions, hdh, days_two]
    rfl
  have hdaily : daily_biomass oneModel pNegShrimp = [-1, -1] := by
    rw [daily_biomass, habw, show pNegShrimp Field.total_shrimp = (-1000 : ℚ) from rfl]
    norm_num
  have hcum : cumulative_biomass oneModel pNegShrimp = [-1, -2] := by
    rw [cumulative_biomass, hdaily]
    simp [cumsum, cumsumFrom]
    norm_num
  constructor
  · intro a ha
    rw [habw] at ha
    simp at ha
    rw [ha]
    norm_num
  · rw [hcum]
    norm_num [List.getD_cons_zero, List.getD_cons_succ]

/-- Claim C5 (amended): whenever all ABW predictions are non-negative and
total_shrimp is non-negative, the cumulative biomass series is
monotonically non-decreasing over adjacent days. -/
theorem claim_C5_amended (m : Model) (p : Params) (d : ℕ)
    (habw : ∀ a ∈ abw_predictions m p, 0 ≤ a)
    (hts : 0 ≤ p .total_shrimp)
    (h : d + 1 < (cumulative_biomass m p).length) :
    (cumulative_biomass m p).getD d 0
      ≤ (cumulative_biomass m p).getD (d + 1) 0 := by
  have hlen : d + 1 < (daily_biomass m p).length := by
    simpa [cumulative_biomass, cumsum_length] using h
  have hbound : d + 1 < (abw_predictions m p).length := by
    simpa [daily_biomass] using hlen
  have hnn : 0 ≤ (daily_biomass m p).getD (d + 1) 0 := by
    rw [daily_biomass, getD_map _ _ _ hbound]
    refine mul_nonneg (div_nonneg ?_ (by norm_num)) hts
    refine habw _ ?_
    rw [List.getD_eq_getElem _ _ hbound]
    exact List.getElem_mem hbound
  rw [cumulative_biomass, cumsum_getD_succ _ _ hlen]
  linarith

/-- Witness for the amended C5 on a 2-day horizon with non-negative
predictions and a non-negative shrimp count. -/
theorem claim_C5_witness :
    (cumulative_biomass oneModel pTwo).getD 0 0
      ≤ (cumulative_biomass oneModel pTwo).getD 1 0 :=
  claim_C5_amended oneModel pTwo 0
    (by
      intro a ha
      rw [show abw_predictions oneModel pTwo = [1, 1] by
        rw [abw_predictions, show pTwo Field.days_until_harvest = (2 : ℚ) from rfl,
          days_two]
        rfl] at ha
      simp at ha
      rw [ha]
      norm_num)
    (by norm_num [pTwo])
    (by
      rw [cumulative_biomass, cumsum_length, daily_biomass, abw_predictions,
        show pTwo Field.days_until_harvest = (2 : ℚ) from rfl, days_two]
      simp)

/-- Claim C6: the spec's scenario (horizon 3, 100 shrimp, price 1, ABW
predictions 10/20/30 grams) yields daily biomass [1, 2, 3], cumulative
biomass [1, 3, 6], cumulative revenue [15000, 45000, 90000], and a summary
amount formatted with thousands separators and 2 decimals as "90,000.00". -/
theorem claim_C6 :
    abw_predictions stubABW pScenario = [10, 20, 30]
    ∧ daily_biomass stubABW pScenario = [1, 2, 3]
    ∧ cumulative_biomass stubABW pScenario = [1, 3, 6]
    ∧ cumulative_revenue_idr stubABW pScenario = [15000, 45000, 90000]
    ∧ formatMoney 90000 = "90,000.00"
    ∧ (update_output stubSR stubABW rawScenario).map Forecast.summary
        = some "Forecasted Revenue by Day 3: IDR 90,000.00" := by
  have hdh : pScenario Field.days_until_harvest = (3 : ℚ) := by
    norm_num [pScenario, coerceInputs, rawScenario, pyInt]
  have hts : pScenario Field.total_shrimp = (100 : ℚ) := by
    norm_num [pScenario, coerceInputs, rawScenario, pyInt]
  have hpk : pScenario Field.price_per_kg = (1 : ℚ) := by
    norm_num [pScenario, coerceInputs, rawScenario, pyInt]
  have habw : abw_predictions stubABW pScenario = [10, 20, 30] := by
    rw [abw_predictions, hdh, days_three]
    simp [stubABW, features_abw]
    norm_num
  have hdaily : daily_biomass stubABW pScenario = [1, 2, 3] := by
    rw [daily_biomass, habw, hts]
    norm_num
  have hcb : cumulative_biomass stubABW pScenario = [1, 3, 6] := by
    rw [cumulative_biomass, hdaily]
    simp [cumsum, cumsumFrom]
    norm_num
  have hcr : cumulative_revenue_idr stubABW pScenario = [15000, 45000, 90000] := by
    rw [cumulative_revenue_idr, hdaily, hpk]
    simp [cumsum, cumsumFrom, usd_to_idr]
    norm_num
  have hround : roundHalfEven ((90000 : ℚ) * 100) = 9000000 := by
    norm_num [roundHalfEven]
  have hfmt : formatMoney 90000 = "90,000.00" := by
    unfold formatMoney
    rw [hround]
    rfl
  have hstr : revenue_output 3 90000
      = "Forecasted Revenue by Day 3: IDR 90,000.00" := by
    have h2 : pyInt 3 = 3 := by norm_num [pyInt]
    unfold revenue_output formatMoney
    rw [hround, h2]
    rfl
  refine ⟨habw, hdaily, hcb, hcr, hfmt, ?_⟩
  rw [update_output, show coerceInputs rawScenario = pScenario from rfl,
    forecast, hcr,
    show ([15000, 45000, 90000] : List ℚ).getLast? = some 90000 from rfl]
  simp only [Option.map_some']
  rw [hdh, hstr]

/-- Claim C9: a missing (None) input falls back to the documented default
for its field, and the forecast on all-default inputs still succeeds;
a missing value is never rejected as an error. -/
theorem claim_C9 (raw : RawInputs) (k : Field) (mSR mABW : Model)
    (h : raw k = none) :
    coerceInputs raw k = default_values k
    ∧ (update_output mSR mABW rawAllNone).isSome = true := by
  constructor
  · simp [coerceInputs, h]
  · have hdh : coerceInputs rawAllNone Field.days_until_harvest = (60 : ℚ) := rfl
    have hlen :
        (cumulative_revenue_idr mABW (coerceInputs rawAllNone)).length = 60 := by
      rw [cumulative_revenue_idr, cumsum_length, List.length_map, daily_biomass,
        List.length_map, abw_predictions, List.length_map, hdh, days_length_sixty]
    have hne : cumulative_revenue_idr mABW (coerceInputs rawAllNone) ≠ [] := by
      intro hnil
      rw [hnil] at hlen
      simp at hlen
    rcases hx : (cumulative_revenue_idr mABW (coerceInputs rawAllNone)).getLast?
      with _ | v
    · exfalso
      have h2 : (cumulative_revenue_idr mABW (coerceInputs rawAllNone)).getLast?.isSome :=
        List.getLast?_isSome.mpr hne
      rw [hx] at h2
      simp at h2
    · rw [update_output, forecast, hx]
      rfl

/-- Witness for C9: an empty morning_do submission takes the default 7.2,
and the all-empty submission produces a forecast. -/
theorem claim_C9_witness :
    coerceInputs rawAllNone Field.morning_do = default_values Field.morning_do
    ∧ (update_output zeroModel zeroModel rawAllNone).isSome = true :=
  claim_C9 rawAllNone Field.morning_do zeroModel zeroModel rfl

/-- Claim C10 (implicit): every provided value is truncated to an integer
before use while a defaulted value keeps its fractional part, so typing 7.2
into morning_do gives 7 where leaving it empty gives 7.2, and the same
nominal value yields different forecasts depending on whether it was typed
or defaulted. -/
theorem claim_C10 (raw : RawInputs) (k : Field) (v : ℚ)
    (h : raw k = some v) :
    coerceInputs raw k = ((pyInt v : ℤ) : ℚ)
    ∧ coerceInputs rawTypedDO Field.morning_do = 7
    ∧ coerceInputs rawDefaultedDO Field.morning_do = 7.2
    ∧ update_output echoDO oneModel rawTypedDO
        ≠ update_output echoDO oneModel rawDefaultedDO := by
  refine ⟨by simp [coerceInputs, h], ?_, ?_, ?_⟩
  · norm_num [coerceInputs, rawTypedDO, pyInt]
  · norm_num [coerceInputs, rawDefaultedDO, default_values]
  · have hdhT : coerceInputs rawTypedDO Field.days_until_harvest = (2 : ℚ) := by
      norm_num [coerceInputs, rawTypedDO, pyInt]
    have hdhD : coerceInputs rawDefaultedDO Field.days_until_harvest = (2 : ℚ) := by
      norm_num [coerceInputs, rawDefaultedDO, pyInt]
    have hdoT : coerceInputs rawTypedDO Field.morning_do = (7 : ℚ) := by
      norm_num [coerceInputs, rawTypedDO, pyInt]
    have hdoD : coerceInputs rawDefaultedDO Field.morning_do = (7.2 : ℚ) := by
      norm_num [coerceInputs, rawDefaultedDO, default_values]
    have hsrT : sr_predictions echoDO (coerceInputs rawTypedDO) = [7, 7] := by
      rw [sr_predictions, hdhT, days_two]
      simp [echoDO, features_sr, hdoT]
    have hsrD : sr_predictions echoDO (coerceInputs rawDefaultedDO) = [7.2, 7.2] := by
      rw [sr_predictions, hdhD, days_two]
      simp [echoDO, features_sr, hdoD]
    have hmapT :
        (update_output echoDO oneModel rawTypedDO).map Forecast.sr
          = some [(7 : ℚ), 7] := by
      rw [update_output, forecast]
      rcases hx : (cumulative_revenue_idr oneModel (coerceInputs rawTypedDO)).getLast?
        with _ | v
      · exfalso
        have hlenT :
            (cumulative_revenue_idr oneModel (coerceInputs rawTypedDO)).length = 2 := by
          rw [cumulative_revenue_idr, cumsum_length, List.length_map, daily_biomass,
            List.length_map, abw_predictions, List.length_map, hdhT, days_two]
          rfl
        have hneT : cumulative_revenue_idr oneModel (coerceInputs rawTypedDO) ≠ [] :=
          fun hnil => by rw [hnil] at hlenT; simp at hlenT
        have h2 := List.getLast?_isSome.mpr hneT
        rw [hx] at h2
        simp at h2
      · simp only [Option.map_some']
        rw [hsrT]
    have hmapD :
        (update_output echoDO oneModel rawDefaultedDO).map Forecast.sr
          = some [(7.2 : ℚ), 7.2] := by
      rw [update_output, forecast]
      rcases hx : (cumulative_revenue_idr oneModel (coerceInputs rawDefaultedDO)).getLast?
        with _ | v
      · exfalso
        have hlenD :
            (cumulative_revenue_idr oneModel (coerceInputs rawDefaultedDO)).length = 2 := by
          rw [cumulative_revenue_idr, cumsum_length, List.length_map, daily_biomass,
            List.length_map, abw_predictions, List.length_map, hdhD, days_two]
          rfl
        have hneD : cumulative_revenue_idr oneModel (coerceInputs rawDefaultedDO) ≠ [] :=
          fun hnil => by rw [hnil] at hlenD; simp at hlenD
        have h2 := List.getLast?_isSome.mpr hneD
        rw [hx] at h2
        simp at h2
      · simp only [Option.map_some']
        rw [hsrD]
    intro heq
    have hcontra := congrArg (Option.map Forecast.sr) heq
    rw [hmapT, hmapD] at hcontra
    norm_num at hcontra

/-- Witness for C10: typing 7.2 into morning_do is truncated to 7 while the
defaulted 7.2 is kept, and the two forecasts differ. -/
theorem claim_C10_witness :
    coerceInputs rawTypedDO Field.morning_do = ((pyInt 7.2 : ℤ) : ℚ)
    ∧ coerceInputs rawTypedDO Field.morning_do = 7
    ∧ coerceInputs rawDefaultedDO Field.morning_do = 7.2
    ∧ update_output echoDO oneModel rawTypedDO
        ≠ update_output echoDO oneModel rawDefaultedDO :=
  claim_C10 rawTypedDO Field.morning_do 7.2 rfl

end ShrimpDash
